import Mathlib

/-!
Verification development for the node-etherscan-api client library.

The repository ships two facade implementations, `src/EtherscanApi.js`
(JavaScript client) and `src/index.ts` (TypeScript client).  Both build
parameter mappings for the remote Etherscan HTTP API and hand them to a
shared request builder.  The static lookup tables (network hosts, unit
exponents, module/action constants) and the utility functions
(`etherConvert`, `createRequest`, `getHex`) are not part of the shipped
sources; they are modelled here from the written specification, faithful
to its words.  Everything else is translated directly from the two source
files.
-/

namespace Etherscan

/-- A JavaScript value appearing in a request-parameter mapping: a string,
a number, or `undefined` (the sentinel for an absent optional argument). -/
inductive JVal where
  | vstr : String → JVal
  | vnum : Int → JVal
  | vundefined : JVal
deriving DecidableEq

/-- A request-parameter mapping: an ordered association list of key/value
pairs, mirroring a JavaScript object literal (keys are unique by
construction in every facade method). -/
abbrev Params := List (String × JVal)

/-- How a parameter value is rendered into a query string.  JavaScript
string coercion would render `undefined` as the literal text
"undefined"; the request builder must never let that happen. -/
def JVal.render : JVal → String
  | .vstr s => s
  | .vnum n => toString n
  | .vundefined => "undefined"

/-- Whether a value is the `undefined` sentinel. -/
def JVal.isUndefined : JVal → Bool
  | .vundefined => true
  | _ => false

/-- Map an optional numeric argument to its JavaScript value. -/
def optNum : Option Int → JVal
  | some n => .vnum n
  | none => .vundefined

/-- Map an optional string argument to its JavaScript value. -/
def optStr : Option String → JVal
  | some s => .vstr s
  | none => .vundefined

/-- JavaScript object-spread assignment `\x7b...ps, k: v\x7d`: if the key is
already present its value is replaced in place, otherwise the pair is
appended at the end. -/
def setParam (ps : Params) (k : String) (v : JVal) : Params :=
  if ps.any (fun p => p.fst == k) then
    ps.map (fun p => if p.fst == k then (k, v) else p)
  else
    ps ++ [(k, v)]

/-- Modelled from the spec (§4.2, not shipped under src/): the request
builder filters out entries whose value is `undefined` before
serialization. -/
def filterUndefined (ps : Params) : Params :=
  ps.filter (fun p => !p.snd.isUndefined)

/-- The `key=value` fragments of the outbound query string, one per
parameter that survived the `undefined` filter. -/
def querySegments (ps : Params) : List String :=
  (filterUndefined ps).map (fun p => p.fst ++ "=" ++ p.snd.render)

/-- Modelled from the spec (§4.2, not shipped under src/): the query
string serialization used by the request builder. -/
def buildQueryString (ps : Params) : String :=
  String.intercalate "&" (querySegments ps)

/-- The JSON response envelope returned by the remote API for every call,
with the payload type depending on the operation. -/
structure Envelope (α : Type) where
  status : String
  message : String
  result : α

/-- An error produced by the unit converter. -/
inductive ConvErr where
  | invalidUnit : ConvErr
  | invalidNumber : ConvErr
deriving DecidableEq

/-- An error surfaced to the caller of a facade method: a remote-API
failure carrying the envelope message, or a converter error. -/
inductive ApiErr where
  | remote : String → ApiErr
  | conv : ConvErr → ApiErr
deriving DecidableEq

/-- Modelled from the spec (§4.2, not shipped under src/): the request
builder `createRequest(host, params)`.  It drops `undefined` entries,
serializes the rest into a query string, issues one GET (represented by
the `remote` oracle from host and query string to envelope), and resolves
with the `result` field on a success status or rejects with the envelope
message otherwise. -/
def createRequest {α : Type} (remote : String → String → Envelope α)
    (host : String) (params : Params) : Except ApiErr α :=
  let env := remote host (buildQueryString params)
  if env.status = "1" then .ok env.result else .error (.remote env.message)

/-- Modelled from the spec (§2/§6, not shipped under src/): the fixed
table from upper-case network name to API host, one entry per supported
network (main, ropsten, kovan, rinkeby). -/
def NETWORKS : List (String × String) :=
  [("MAIN", "https://api.etherscan.io/api"),
   ("ROPSTEN", "https://api-ropsten.etherscan.io/api"),
   ("KOVAN", "https://api-kovan.etherscan.io/api"),
   ("RINKEBY", "https://api-rinkeby.etherscan.io/api")]

/-- JavaScript `String.prototype.toUpperCase` restricted to the ASCII
names used for networks. -/
def jsToUpperCase (s : String) : String :=
  String.mk (s.data.map Char.toUpper)

/-- The immutable state of a constructed client: API token, resolved
network name, and resolved host. -/
structure Client where
  token : String
  network : String
  host : String
deriving DecidableEq

/-- The TypeScript client constructor (src/index.ts, lines 28-36): the
network name is upper-cased, replaced by MAIN when not a key of the
network table, and resolved to its fixed host. -/
def mkClientTS (token network : String) : Client :=
  let netName := jsToUpperCase network
  let net := if (NETWORKS.lookup netName).isSome then netName else "MAIN"
  { token := token, network := net, host := (NETWORKS.lookup net).getD "" }

/-- The JavaScript client constructor (src/EtherscanApi.js, lines 18-25):
identical resolution logic. -/
def mkClientJS (token networkName : String) : Client :=
  let netName := jsToUpperCase networkName
  let net := if (NETWORKS.lookup netName).isSome then netName else "MAIN"
  { token := token, network := net, host := (NETWORKS.lookup net).getD "" }

/-- The private request helper shared by every public operation
(`_createRequest` in src/EtherscanApi.js lines 33-38, `createRequest` in
src/index.ts lines 254-259): spreads the caller params and injects the
client token under the `apikey` key. -/
def clientRequest {α : Type} (c : Client) (remote : String → String → Envelope α)
    (params : Params) : Except ApiErr α :=
  createRequest remote c.host (setParam params "apikey" (JVal.vstr c.token))

namespace MODULES

/-- Modelled from the spec (§3/§6, not shipped under src/): the wire value
of the `account` module selector. -/
def ACCOUNT : String := "account"

/-- Modelled from the spec: the `contract` module selector. -/
def CONTRACT : String := "contract"

/-- Modelled from the spec: the `transaction` module selector. -/
def TRANSACTION : String := "transaction"

/-- Modelled from the spec: the `block` module selector. -/
def BLOCK : String := "block"

/-- Modelled from the spec: the `logs` module selector. -/
def LOGS : String := "logs"

/-- Modelled from the spec: the `proxy` module selector. -/
def PROXY : String := "proxy"

/-- Modelled from the spec: the `stats` module selector. -/
def STATS : String := "stats"

end MODULES

namespace ACTIONS

/-- Modelled from the spec (§3/§6, not shipped under src/): wire value of
the balance action, named `GET_BALANCE` by the JavaScript constants file
and `BALANCE` by the TypeScript one. -/
def GET_BALANCE : String := "balance"

/-- Modelled from the spec: the TypeScript alias of `GET_BALANCE`. -/
def BALANCE : String := "balance"

/-- Modelled from the spec: the multi-address balance action. -/
def GET_BALANCE_MULTI : String := "balancemulti"

/-- Modelled from the spec: the TypeScript alias of `GET_BALANCE_MULTI`. -/
def BALANCE_MULTI : String := "balancemulti"

/-- Modelled from the spec: the normal-transaction-list action. -/
def GET_TRANSACTIONS_LIST : String := "txlist"

/-- Modelled from the spec: the TypeScript alias of
`GET_TRANSACTIONS_LIST`. -/
def TRANSACTIONS_LIST : String := "txlist"

/-- Modelled from the spec: the internal-transaction-list action. -/
def GET_TRANSACTIONS_LIST_INTERNAL : String := "txlistinternal"

/-- Modelled from the spec: the TypeScript alias of
`GET_TRANSACTIONS_LIST_INTERNAL`. -/
def TRANSACTIONS_LIST_INTERNAL : String := "txlistinternal"

/-- Modelled from the spec: the mined-blocks action. -/
def GET_MINED_BLOCKS : String := "getminedblocks"

/-- Modelled from the spec: the contract-ABI action. -/
def GET_ABI : String := "getabi"

/-- Modelled from the spec: the contract-execution-status action. -/
def GET_CONTRACT_STATUS : String := "getstatus"

/-- Modelled from the spec: the transaction-receipt-status action. -/
def GET_TRANSACTION_STATUS : String := "gettxreceiptstatus"

/-- Modelled from the spec: the block-reward action. -/
def GET_BLOCK_REWARD : String := "getblockreward"

/-- Modelled from the spec: the event-logs action. -/
def GET_LOGS : String := "getLogs"

/-- Modelled from the spec: the recent-block-number proxy action. -/
def GET_RECENT_BLOCK_NUMBER : String := "eth_blockNumber"

/-- Modelled from the spec: the block-by-number proxy action. -/
def GET_BLOCK_BY_NUMBER : String := "eth_getBlockByNumber"

/-- Modelled from the spec: the uncle-by-number-and-index proxy action. -/
def GET_UNCLE_BLOCK_NUMBER_AND_INDEX : String := "eth_getUncleByBlockNumberAndIndex"

/-- Modelled from the spec: the block-transaction-count proxy action. -/
def GET_BLOCK_TX_COUNT_BY_NUMBER : String := "eth_getBlockTransactionCountByNumber"

/-- Modelled from the spec: the transaction-by-hash proxy action. -/
def GET_TRANSACTION_BY_HASH : String := "eth_getTransactionByHash"

/-- Modelled from the spec: the transaction-by-number-and-index proxy
action. -/
def GET_TX_BY_BLOCK_NUMBER_AND_INDEX : String := "eth_getTransactionByBlockNumberAndIndex"

/-- Modelled from the spec: the transaction-count proxy action. -/
def GET_TRANSACTION_COUNT : String := "eth_getTransactionCount"

/-- Modelled from the spec: the raw-transaction-submission proxy action. -/
def SEND_RAW_TRANSACTION : String := "eth_sendRawTransaction"

/-- Modelled from the spec: the transaction-receipt proxy action. -/
def GET_TRANSACTION_RECEIPT : String := "eth_getTransactionReceipt"

/-- Modelled from the spec: the message-call proxy action. -/
def CALL : String := "eth_call"

/-- Modelled from the spec: the code-at-address proxy action. -/
def GET_CODE : String := "eth_getCode"

/-- Modelled from the spec: the storage-at-position proxy action. -/
def GET_STORAGE_AT : String := "eth_getStorageAt"

/-- Modelled from the spec: the gas-price proxy action. -/
def GET_GAS_PRICE : String := "eth_gasPrice"

/-- Modelled from the spec: the gas-estimation proxy action. -/
def ESTIMATE_GAS : String := "eth_estimateGas"

/-- Modelled from the spec: the token-total-supply stats action. -/
def GET_TOKEN_BY_CONTRACT : String := "tokensupply"

/-- Modelled from the spec: the token-balance action. -/
def GET_TOKEN_BALANCE_BY_CONTRACT : String := "tokenbalance"

/-- Modelled from the spec: the total-ether-supply stats action. -/
def GET_TOTAL_ETHER_SUPPLY : String := "ethsupply"

/-- Modelled from the spec: the last-ether-price stats action. -/
def GET_LAST_ETHER_PRICE : String := "ethprice"

end ACTIONS

/-! ### Exact decimal arithmetic

Modelled from the spec (§4.1): amounts are base-10 numerals, optionally
fractional, manipulated with arbitrary-precision decimal arithmetic.  A
decimal value is a natural mantissa over a power-of-ten denominator; the
source delegates this to the bignumber.js library, which normalizes
values (no trailing fractional zeros) before rendering with `toFixed`. -/

/-- An exact non-negative decimal value `m / 10 ^ f`. -/
structure Dec where
  m : Nat
  f : Nat
deriving DecidableEq

/-- The digit character for a value below ten. -/
def digCh : Nat → Char
  | 0 => '0'
  | 1 => '1'
  | 2 => '2'
  | 3 => '3'
  | 4 => '4'
  | 5 => '5'
  | 6 => '6'
  | 7 => '7'
  | 8 => '8'
  | 9 => '9'
  | _ => '*'

/-- The numeric value of a digit character. -/
def digVal (c : Char) : Nat := c.toNat - 48

/-- The `w` decimal digits of a value below `10 ^ w`, most significant
first. -/
def natDigs : Nat → Nat → List Char
  | 0, _ => []
  | w + 1, x => digCh (x / 10 ^ w) :: natDigs w (x % 10 ^ w)

/-- Fuel-driven digit counter: with fuel at least `n`, the number of
decimal digits of `n`. -/
def nDigAux : Nat → Nat → Nat
  | 0, _ => 1
  | fuel + 1, n => if n < 10 then 1 else nDigAux fuel (n / 10) + 1

/-- The number of decimal digits of `n` (one digit for zero). -/
def numDigits (n : Nat) : Nat := nDigAux n n

/-- The plain decimal rendering of a natural number. -/
def renderNat (n : Nat) : List Char := natDigs (numDigits n) n

/-- Normalization loop: strip factors of ten shared by the mantissa and
the denominator exponent. -/
def normAux : Nat → Nat → Dec
  | m, 0 => ⟨m, 0⟩
  | m, f + 1 => if m % 10 = 0 then normAux (m / 10) f else ⟨m, f + 1⟩

/-- The normalized form of a decimal value, as kept by bignumber.js: the
fractional exponent is zero or the mantissa is not divisible by ten. -/
def normDec (d : Dec) : Dec := normAux d.m d.f

/-- Multiplication of a decimal value by `10 ^ k` for a possibly negative
`k`, exact in both directions. -/
def shiftDec (k : Int) (d : Dec) : Dec :=
  if 0 ≤ k then ⟨d.m * 10 ^ k.toNat, d.f⟩ else ⟨d.m, d.f + (-k).toNat⟩

/-- The character rendering of a decimal value: plain notation, with a
point and exactly `f` fractional digits when `f` is positive. -/
def renderDecChars (d : Dec) : List Char :=
  if d.f = 0 then renderNat d.m
  else renderNat (d.m / 10 ^ d.f) ++ '.' :: natDigs d.f (d.m % 10 ^ d.f)

/-- The plain decimal string of a decimal value. -/
def renderDec (d : Dec) : String := String.mk (renderDecChars d)

/-- Split a character list at the first point character. -/
def splitDot : List Char → List Char × Option (List Char)
  | [] => ([], none)
  | c :: cs =>
    if c = '.' then ([], some cs)
    else
      let p := splitDot cs
      (c :: p.1, p.2)

/-- Parse a non-empty run of digit characters into its value. -/
def parseDigits (cs : List Char) : Option Nat :=
  if cs ≠ [] ∧ cs.all Char.isDigit then
    some (cs.foldl (fun a c => a * 10 + digVal c) 0)
  else none

/-- Parse a base-10 numeral, optionally fractional, into an exact decimal
value. -/
def parseDecChars (cs : List Char) : Option Dec :=
  match splitDot cs with
  | (ics, none) => (parseDigits ics).map (fun n => ⟨n, 0⟩)
  | (ics, some fcs) =>
    match parseDigits ics, parseDigits fcs with
    | some ni, some nf => some ⟨ni * 10 ^ fcs.length + nf, fcs.length⟩
    | _, _ => none

/-- Parse a decimal amount string. -/
def parseDec (s : String) : Option Dec := parseDecChars s.data

/-- The numeric value of a hexadecimal digit character. -/
def hexVal (c : Char) : Option Nat :=
  if c.isDigit then some (c.toNat - 48)
  else if 'a' ≤ c ∧ c ≤ 'f' then some (c.toNat - 87)
  else if 'A' ≤ c ∧ c ≤ 'F' then some (c.toNat - 55)
  else none

/-- Parse a non-empty run of hexadecimal digit characters. -/
def parseHexNat (cs : List Char) : Option Nat :=
  if cs = [] then none
  else cs.foldl (fun a c => a.bind (fun x => (hexVal c).map (fun h => x * 16 + h))) (some 0)

/-- Modelled from the spec: the numeric parsing performed by the
bignumber.js constructor, accepting a plain decimal numeral or a
0x-prefixed hexadecimal one. -/
def bigNumParseChars : List Char → Option Dec
  | '0' :: 'x' :: rest => (parseHexNat rest).map (fun n => ⟨n, 0⟩)
  | cs => parseDecChars cs

/-- Parse a string the way the bignumber.js constructor does. -/
def bigNumParse (s : String) : Option Dec := bigNumParseChars s.data

/-- Modelled from the spec (§4.3, not shipped under src/): the `getHex`
utility encoding a caller-supplied number as a 0x-prefixed hexadecimal
string. -/
def getHex (n : Nat) : String := "0x" ++ String.mk (Nat.toDigits 16 n)

/-- Modelled from the spec (§3, not shipped under src/): the unit table,
mapping each unit name to its power-of-ten exponent relative to wei. -/
def UNITS : List (String × Nat) :=
  [("wei", 0), ("kwei", 3), ("mwei", 6), ("gwei", 9),
   ("szabo", 12), ("finney", 15), ("ether", 18)]

/-- Modelled from the spec (§4.1, not shipped under src/): the unit
converter.  It fails with an invalid-unit error when either unit is not
in the table, returns the input unchanged when the units coincide, and
otherwise scales the parsed amount by
`10 ^ (exponent fromUnit - exponent toUnit)` exactly and renders the
normalized result as a plain decimal string. -/
def etherConvert (amount fromUnit toUnit : String) : Except ConvErr String :=
  match UNITS.lookup fromUnit, UNITS.lookup toUnit with
  | some ea, some eb =>
    if fromUnit = toUnit then .ok amount
    else
      match parseDec amount with
      | some d => .ok (renderDec (normDec (shiftDec ((ea : Int) - (eb : Int)) d)))
      | none => .error .invalidNumber
  | _, _ => .error .invalidUnit

instance {ε α : Type} [DecidableEq ε] [DecidableEq α] : DecidableEq (Except ε α) :=
  fun x y =>
    match x, y with
    | .ok a, .ok b =>
      if h : a = b then isTrue (by rw [h])
      else isFalse (by intro heq; cases heq; exact h rfl)
    | .error e, .error e' =>
      if h : e = e' then isTrue (by rw [h])
      else isFalse (by intro heq; cases heq; exact h rfl)
    | .ok _, .error _ => isFalse (by intro heq; cases heq)
    | .error _, .ok _ => isFalse (by intro heq; cases heq)

/-- A decimal amount string is canonical when it is exactly the rendering
of the normalized form of the value it denotes. -/
def canonicalDec (s : String) : Prop :=
  (parseDec s).map (fun d => renderDec (normDec d)) = some s

instance (s : String) : Decidable (canonicalDec s) := by
  unfold canonicalDec
  infer_instance

/-! ### TypeScript facade (src/index.ts): the parameter mapping each
public operation hands to the private `createRequest` helper, before the
`apikey` injection. -/

/-- src/index.ts lines 44-59, `getAccountBalance` request parameters. -/
def tsGetAccountBalance_params (address : String) : Params :=
  [("module", .vstr MODULES.ACCOUNT), ("action", .vstr ACTIONS.BALANCE),
   ("tag", .vstr "latest"), ("address", .vstr address)]

/-- src/index.ts lines 68-92, `getAccountBalances` request parameters. -/
def tsGetAccountBalances_params (c : Client) (addresses : List String) : Params :=
  [("apikey", .vstr c.token), ("module", .vstr MODULES.ACCOUNT),
   ("action", .vstr ACTIONS.BALANCE_MULTI), ("tag", .vstr "latest"),
   ("address", .vstr (String.intercalate "," addresses))]

/-- src/index.ts lines 105-123, `getTransactions` request parameters; the
source places the module constant under the `action` key and conversely. -/
def tsGetTransactions_params (address : String)
    (startBlock endBlock offset page : Option Int) (sort : Option String) : Params :=
  [("action", .vstr MODULES.ACCOUNT), ("module", .vstr ACTIONS.TRANSACTIONS_LIST),
   ("address", .vstr address), ("endblock", optNum endBlock),
   ("startblock", optNum startBlock), ("offset", optNum offset),
   ("page", optNum page), ("sort", optStr sort)]

/-- src/index.ts lines 136-154, `getInternalTransactions` request
parameters, with the same transposed module/action keys. -/
def tsGetInternalTransactions_params (address : String)
    (startBlock endBlock offset page : Option Int) (sort : Option String) : Params :=
  [("action", .vstr MODULES.ACCOUNT),
   ("module", .vstr ACTIONS.TRANSACTIONS_LIST_INTERNAL),
   ("address", .vstr address), ("endblock", optNum endBlock),
   ("startblock", optNum startBlock), ("offset", optNum offset),
   ("page", optNum page), ("sort", optStr sort)]

/-- src/index.ts lines 161-169, `getInternalTransactionsByHash` request
parameters, with the same transposed module/action keys. -/
def tsGetInternalTransactionsByHash_params (transactionHash : String) : Params :=
  [("action", .vstr MODULES.ACCOUNT),
   ("module", .vstr ACTIONS.TRANSACTIONS_LIST_INTERNAL),
   ("txhash", .vstr transactionHash)]

/-- src/index.ts lines 178-190, `getMinedBlock` request parameters: the
transposed keys again, with the internal-transaction-list action constant
and no mined-blocks action or blocktype entry. -/
def tsGetMinedBlock_params (address : String) (offset page : Option Int) : Params :=
  [("action", .vstr MODULES.ACCOUNT),
   ("module", .vstr ACTIONS.TRANSACTIONS_LIST_INTERNAL),
   ("address", .vstr address), ("offset", optNum offset), ("page", optNum page)]

/-- src/index.ts lines 197-205, `getContractAbi` request parameters. -/
def tsGetContractAbi_params (address : String) : Params :=
  [("module", .vstr MODULES.CONTRACT), ("action", .vstr ACTIONS.GET_ABI),
   ("address", .vstr address)]

/-- src/index.ts lines 215-228, `getContractExecutionStatus` request
parameters. -/
def tsGetContractExecutionStatus_params (txhash : String) : Params :=
  [("module", .vstr MODULES.TRANSACTION),
   ("action", .vstr ACTIONS.GET_CONTRACT_STATUS), ("txhash", .vstr txhash)]

/-- src/index.ts lines 238-246, `getTransactionStatus` request
parameters. -/
def tsGetTransactionStatus_params (txhash : String) : Params :=
  [("module", .vstr MODULES.TRANSACTION),
   ("action", .vstr ACTIONS.GET_TRANSACTION_STATUS), ("txhash", .vstr txhash)]

/-! ### JavaScript facade (src/EtherscanApi.js): the parameter mapping
each public operation hands to `_createRequest`, before the `apikey`
injection. -/

/-- src/EtherscanApi.js lines 46-58, `getAccountBalance` request
parameters. -/
def jsGetAccountBalance_params (address tag : String) : Params :=
  [("module", .vstr MODULES.ACCOUNT), ("action", .vstr ACTIONS.GET_BALANCE),
   ("tag", .vstr tag), ("address", .vstr address)]

/-- src/EtherscanApi.js lines 67-85, `getAccountBalances` request
parameters. -/
def jsGetAccountBalances_params (c : Client) (addresses : List String) (tag : String) : Params :=
  [("apikey", .vstr c.token), ("module", .vstr MODULES.ACCOUNT),
   ("action", .vstr ACTIONS.GET_BALANCE_MULTI),
   ("address", .vstr (String.intercalate "," addresses)), ("tag", .vstr tag)]

/-- src/EtherscanApi.js lines 98-109, `getTransactions` request
parameters. -/
def jsGetTransactions_params (address : String)
    (startBlock endBlock offset page : Option Int) (sort : Option String) : Params :=
  [("module", .vstr MODULES.ACCOUNT), ("action", .vstr ACTIONS.GET_TRANSACTIONS_LIST),
   ("address", .vstr address), ("endblock", optNum endBlock),
   ("startblock", optNum startBlock), ("offset", optNum offset),
   ("page", optNum page), ("sort", optStr sort)]

/-- src/EtherscanApi.js lines 122-133, `getInternalTransactions` request
parameters. -/
def jsGetInternalTransactions_params (address : String)
    (startBlock endBlock offset page : Option Int) (sort : Option String) : Params :=
  [("module", .vstr MODULES.ACCOUNT),
   ("action", .vstr ACTIONS.GET_TRANSACTIONS_LIST_INTERNAL),
   ("address", .vstr address), ("endblock", optNum endBlock),
   ("startblock", optNum startBlock), ("offset", optNum offset),
   ("page", optNum page), ("sort", optStr sort)]

/-- src/EtherscanApi.js lines 140-146, `getInternalTransactionsByHash`
request parameters. -/
def jsGetInternalTransactionsByHash_params (txhash : String) : Params :=
  [("module", .vstr MODULES.ACCOUNT),
   ("action", .vstr ACTIONS.GET_TRANSACTIONS_LIST_INTERNAL),
   ("txhash", .vstr txhash)]

/-- src/EtherscanApi.js lines 157-166, `getMinedBlocks` request
parameters: the dedicated mined-blocks action with a blocktype entry. -/
def jsGetMinedBlocks_params (address type : String) (offset page : Option Int) : Params :=
  [("module", .vstr MODULES.ACCOUNT), ("action", .vstr ACTIONS.GET_MINED_BLOCKS),
   ("blocktype", .vstr type), ("address", .vstr address),
   ("offset", optNum offset), ("page", optNum page)]

/-- src/EtherscanApi.js lines 173-181, `getContractAbi` request
parameters. -/
def jsGetContractAbi_params (address : String) : Params :=
  [("module", .vstr MODULES.CONTRACT), ("action", .vstr ACTIONS.GET_ABI),
   ("address", .vstr address)]

/-- src/EtherscanApi.js lines 190-196, `getContractExecutionStatus`
request parameters. -/
def jsGetContractExecutionStatus_params (txhash : String) : Params :=
  [("module", .vstr MODULES.TRANSACTION),
   ("action", .vstr ACTIONS.GET_CONTRACT_STATUS), ("txhash", .vstr txhash)]

/-- src/EtherscanApi.js lines 205-211, `getTransactionStatus` request
parameters. -/
def jsGetTransactionStatus_params (txhash : String) : Params :=
  [("module", .vstr MODULES.TRANSACTION),
   ("action", .vstr ACTIONS.GET_TRANSACTION_STATUS), ("txhash", .vstr txhash)]

/-- src/EtherscanApi.js lines 217-223, `getBlockReward` request
parameters. -/
def jsGetBlockReward_params (blockNumber : Int) : Params :=
  [("module", .vstr MODULES.BLOCK), ("action", .vstr ACTIONS.GET_BLOCK_REWARD),
   ("blockno", .vnum blockNumber)]

/-- src/EtherscanApi.js lines 245-272, `getEventsLogs` request
parameters.  The `address` argument of the method is accepted but never
placed into the mapping. -/
def jsGetEventsLogs_params (address : String) (fromBlock : Int) (toBlock : JVal)
    (topic0 : String) (topic01operator : Option String) (topic1 : Option String)
    (topic12operator : Option String) (topic2 : Option String)
    (topic23operator : Option String) (topic3 : Option String)
    (topic02operator : Option String) : Params :=
  [("module", .vstr MODULES.LOGS), ("action", .vstr ACTIONS.GET_LOGS),
   ("fromBlock", .vnum fromBlock), ("toBlock", toBlock),
   ("topic0", .vstr topic0), ("topic0_1_opr", optStr topic01operator),
   ("topic1", optStr topic1), ("topic1_2_opr", optStr topic12operator),
   ("topic2", optStr topic2), ("topic2_3_opr", optStr topic23operator),
   ("topic3", optStr topic3), ("topic0_2_opr", optStr topic02operator)]

/-- src/EtherscanApi.js lines 278-285, `getRecentBlockNumber` request
parameters. -/
def jsGetRecentBlockNumber_params : Params :=
  [("module", .vstr MODULES.PROXY), ("action", .vstr ACTIONS.GET_RECENT_BLOCK_NUMBER)]

/-- src/EtherscanApi.js lines 292-299, `getBlockByNumber` request
parameters, with the block number hex-encoded inline. -/
def jsGetBlockByNumber_params (blockNumber : Nat) : Params :=
  [("module", .vstr MODULES.PROXY), ("action", .vstr ACTIONS.GET_BLOCK_BY_NUMBER),
   ("tag", .vstr ("0x" ++ String.mk (Nat.toDigits 16 blockNumber))),
   ("boolean", .vstr "true")]

/-- src/EtherscanApi.js lines 307-314, `getUncleByBlockNumberAndIndex`
request parameters. -/
def jsGetUncleByBlockNumberAndIndex_params (blockNumber index : Nat) : Params :=
  [("module", .vstr MODULES.PROXY),
   ("action", .vstr ACTIONS.GET_UNCLE_BLOCK_NUMBER_AND_INDEX),
   ("tag", .vstr (getHex blockNumber)), ("index", .vstr (getHex index))]

/-- src/EtherscanApi.js lines 322-330, `getBlockTransactionCount` request
parameters. -/
def jsGetBlockTransactionCount_params (blockNumber : Nat) : Params :=
  [("module", .vstr MODULES.PROXY),
   ("action", .vstr ACTIONS.GET_BLOCK_TX_COUNT_BY_NUMBER),
   ("tag", .vstr (getHex blockNumber))]

/-- src/EtherscanApi.js lines 337-343, `getTransactionByHash` request
parameters. -/
def jsGetTransactionByHash_params (txhash : String) : Params :=
  [("module", .vstr MODULES.PROXY),
   ("action", .vstr ACTIONS.GET_TRANSACTION_BY_HASH), ("txhash", .vstr txhash)]

/-- src/EtherscanApi.js lines 352-359,
`getTransactionByBlockNumberAndIndex` request parameters. -/
def jsGetTransactionByBlockNumberAndIndex_params (blockNumber index : Nat) : Params :=
  [("module", .vstr MODULES.PROXY),
   ("action", .vstr ACTIONS.GET_TX_BY_BLOCK_NUMBER_AND_INDEX),
   ("tag", .vstr (getHex blockNumber)), ("index", .vstr (getHex index))]

/-- src/EtherscanApi.js lines 366-375, `getTransactionCount` request
parameters. -/
def jsGetTransactionCount_params (address tag : String) : Params :=
  [("module", .vstr MODULES.PROXY), ("action", .vstr ACTIONS.GET_TRANSACTION_COUNT),
   ("tag", .vstr tag), ("address", .vstr address)]

/-- src/EtherscanApi.js lines 382-388, `sendRawTransaction` request
parameters. -/
def jsSendRawTransaction_params (hex : String) : Params :=
  [("module", .vstr MODULES.PROXY), ("action", .vstr ACTIONS.SEND_RAW_TRANSACTION),
   ("hex", .vstr hex)]

/-- src/EtherscanApi.js lines 395-401, `getTransactionReceipt` request
parameters. -/
def jsGetTransactionReceipt_params (txhash : String) : Params :=
  [("module", .vstr MODULES.PROXY),
   ("action", .vstr ACTIONS.GET_TRANSACTION_RECEIPT), ("txhash", .vstr txhash)]

/-- src/EtherscanApi.js lines 410-418, `call` request parameters. -/
def jsCall_params (toAddr data tag : String) : Params :=
  [("module", .vstr MODULES.PROXY), ("action", .vstr ACTIONS.CALL),
   ("tag", .vstr tag), ("to", .vstr toAddr), ("data", .vstr data)]

/-- src/EtherscanApi.js lines 425-432, `getCode` request parameters. -/
def jsGetCode_params (address tag : String) : Params :=
  [("module", .vstr MODULES.PROXY), ("action", .vstr ACTIONS.GET_CODE),
   ("address", .vstr address), ("tag", .vstr tag)]

/-- src/EtherscanApi.js lines 440-448, `getStorageAt` request
parameters. -/
def jsGetStorageAt_params (address : String) (position : Nat) (tag : String) : Params :=
  [("module", .vstr MODULES.PROXY), ("action", .vstr ACTIONS.GET_STORAGE_AT),
   ("address", .vstr address), ("position", .vstr (getHex position)),
   ("tag", .vstr tag)]

/-- src/EtherscanApi.js lines 455-471, `getGasPrice` request parameters
(the unit argument is used only in post-processing). -/
def jsGetGasPrice_params : Params :=
  [("module", .vstr MODULES.PROXY), ("action", .vstr ACTIONS.GET_GAS_PRICE)]

/-- src/EtherscanApi.js lines 481-490, `estimateGas` request
parameters. -/
def jsEstimateGas_params (toAddr value gasPrice gas : String) : Params :=
  [("module", .vstr MODULES.PROXY), ("action", .vstr ACTIONS.ESTIMATE_GAS),
   ("to", .vstr toAddr), ("value", .vstr value), ("gasPrice", .vstr gasPrice),
   ("gas", .vstr gas)]

/-- src/EtherscanApi.js lines 497-503, `getTokenByContractAddress`
request parameters. -/
def jsGetTokenByContractAddress_params (contractAddress : String) : Params :=
  [("module", .vstr MODULES.STATS), ("action", .vstr ACTIONS.GET_TOKEN_BY_CONTRACT),
   ("contractaddress", .vstr contractAddress)]

/-- src/EtherscanApi.js lines 510-518, `getTokenBalanceByContractAddress`
request parameters. -/
def jsGetTokenBalanceByContractAddress_params (contractAddress address tag : String) : Params :=
  [("module", .vstr MODULES.ACCOUNT),
   ("action", .vstr ACTIONS.GET_TOKEN_BALANCE_BY_CONTRACT),
   ("contractaddress", .vstr contractAddress), ("address", .vstr address),
   ("tag", .vstr tag)]

/-- src/EtherscanApi.js lines 524-529, `getTotalEtherSupply` request
parameters. -/
def jsGetTotalEtherSupply_params : Params :=
  [("module", .vstr MODULES.STATS), ("action", .vstr ACTIONS.GET_TOTAL_ETHER_SUPPLY)]

/-- src/EtherscanApi.js lines 535-540, `getEtherLastPrice` request
parameters. -/
def jsGetEtherLastPrice_params : Params :=
  [("module", .vstr MODULES.STATS), ("action", .vstr ACTIONS.GET_LAST_ETHER_PRICE)]

/-! ### Facade behavior: the value each operation delivers to its caller,
given a remote oracle from host and query string to response envelope. -/

/-- One record of the multi-address balance response. -/
structure AccountBalance where
  account : String
  balance : String
deriving DecidableEq

/-- src/index.ts lines 44-59, `getAccountBalance`: issue the request,
then convert the balance unless the unit is wei or not in the unit
table. -/
def tsGetAccountBalance (c : Client) (remote : String → String → Envelope String)
    (address unit : String) : Except ApiErr String :=
  (clientRequest c remote (tsGetAccountBalance_params address)).bind fun resp =>
    if unit = "wei" ∨ UNITS.lookup unit = none then .ok resp
    else (etherConvert resp "wei" unit).mapError ApiErr.conv

/-- src/index.ts lines 68-92, `getAccountBalances`: issue the request,
then convert each balance unless the unit is wei or not in the unit
table. -/
def tsGetAccountBalances (c : Client)
    (remote : String → String → Envelope (List AccountBalance))
    (addresses : List String) (unit : String) : Except ApiErr (List AccountBalance) :=
  (clientRequest c remote (tsGetAccountBalances_params c addresses)).bind fun resp =>
    if unit = "wei" ∨ UNITS.lookup unit = none then .ok resp
    else
      (resp.mapM fun item =>
        (etherConvert item.balance "wei" unit).map
          (fun b => AccountBalance.mk item.account b)).mapError ApiErr.conv

/-- src/EtherscanApi.js lines 46-58, `getAccountBalance`: same
post-processing as the TypeScript client, with a caller-supplied tag. -/
def jsGetAccountBalance (c : Client) (remote : String → String → Envelope String)
    (address unit tag : String) : Except ApiErr String :=
  (clientRequest c remote (jsGetAccountBalance_params address tag)).bind fun resp =>
    if unit = "wei" ∨ UNITS.lookup unit = none then .ok resp
    else (etherConvert resp "wei" unit).mapError ApiErr.conv

/-- src/EtherscanApi.js lines 67-85, `getAccountBalances`: same
post-processing as the TypeScript client, with a caller-supplied tag. -/
def jsGetAccountBalances (c : Client)
    (remote : String → String → Envelope (List AccountBalance))
    (addresses : List String) (unit tag : String) : Except ApiErr (List AccountBalance) :=
  (clientRequest c remote (jsGetAccountBalances_params c addresses tag)).bind fun resp =>
    if unit = "wei" ∨ UNITS.lookup unit = none then .ok resp
    else
      (resp.mapM fun item =>
        (etherConvert item.balance "wei" unit).map
          (fun b => AccountBalance.mk item.account b)).mapError ApiErr.conv

/-- src/EtherscanApi.js lines 455-471, `getGasPrice`: issue the request,
read the hex price through the bignumber.js constructor, take its plain
decimal form, return it when the unit is wei, and otherwise hand it to
the converter without any membership check on the unit. -/
def jsGetGasPrice (c : Client) (remote : String → String → Envelope String)
    (unit : String) : Except ApiErr String :=
  (clientRequest c remote jsGetGasPrice_params).bind fun priceHex =>
    match bigNumParse priceHex with
    | none => .error (.conv .invalidNumber)
    | some d =>
      let priceFixed := renderDec (normDec d)
      if unit = "wei" then .ok priceFixed
      else (etherConvert priceFixed "wei" unit).mapError ApiErr.conv

/-- src/EtherscanApi.js lines 382-388, `sendRawTransaction`: the method
body issues the request but has no return statement.  The first
component is the outcome of the remote request that was issued; the
second is what the method hands back to its caller, which is the
JavaScript `undefined` (`none`), never the first component. -/
def jsSendRawTransaction (c : Client) (remote : String → String → Envelope String)
    (hex : String) : Except ApiErr String × Option (Except ApiErr String) :=
  (clientRequest c remote (jsSendRawTransaction_params hex), none)

/-- src/EtherscanApi.js lines 481-490, `estimateGas`: the same missing
return statement as `sendRawTransaction`. -/
def jsEstimateGas (c : Client) (remote : String → String → Envelope String)
    (toAddr value gasPrice gas : String) :
    Except ApiErr String × Option (Except ApiErr String) :=
  (clientRequest c remote (jsEstimateGas_params toAddr value gasPrice gas), none)

/-- src/EtherscanApi.js lines 395-401, `getTransactionReceipt`: a
representative operation that does return its request, for contrast with
the two fire-and-forget methods. -/
def jsGetTransactionReceipt (c : Client) (remote : String → String → Envelope String)
    (txhash : String) : Except ApiErr String :=
  clientRequest c remote (jsGetTransactionReceipt_params txhash)

/-! ### The full set of public operations, for quantifying over "every
public operation" of each client. -/

/-- One public operation of the TypeScript client together with the
arguments that reach its request mapping. -/
inductive TsOp where
  | getAccountBalance (address : String)
  | getAccountBalances (addresses : List String)
  | getTransactions (address : String) (startBlock endBlock offset page : Option Int)
      (sort : Option String)
  | getInternalTransactions (address : String)
      (startBlock endBlock offset page : Option Int) (sort : Option String)
  | getInternalTransactionsByHash (transactionHash : String)
  | getMinedBlock (address : String) (offset page : Option Int)
  | getContractAbi (address : String)
  | getContractExecutionStatus (txhash : String)
  | getTransactionStatus (txhash : String)

/-- The raw parameter mapping a TypeScript operation builds. -/
def tsOpParams (c : Client) : TsOp → Params
  | .getAccountBalance address => tsGetAccountBalance_params address
  | .getAccountBalances addresses => tsGetAccountBalances_params c addresses
  | .getTransactions address sb eb off pg sort =>
    tsGetTransactions_params address sb eb off pg sort
  | .getInternalTransactions address sb eb off pg sort =>
    tsGetInternalTransactions_params address sb eb off pg sort
  | .getInternalTransactionsByHash h => tsGetInternalTransactionsByHash_params h
  | .getMinedBlock address off pg => tsGetMinedBlock_params address off pg
  | .getContractAbi address => tsGetContractAbi_params address
  | .getContractExecutionStatus txhash => tsGetContractExecutionStatus_params txhash
  | .getTransactionStatus txhash => tsGetTransactionStatus_params txhash

/-- The parameter mapping a TypeScript operation actually sends: the raw
mapping with the client token spread in under `apikey`
(src/index.ts lines 254-259). -/
def tsSentParams (c : Client) (op : TsOp) : Params :=
  setParam (tsOpParams c op) "apikey" (JVal.vstr c.token)

/-- One public operation of the JavaScript client together with the
arguments that reach its request mapping. -/
inductive JsOp where
  | getAccountBalance (address tag : String)
  | getAccountBalances (addresses : List String) (tag : String)
  | getTransactions (address : String) (startBlock endBlock offset page : Option Int)
      (sort : Option String)
  | getInternalTransactions (address : String)
      (startBlock endBlock offset page : Option Int) (sort : Option String)
  | getInternalTransactionsByHash (txhash : String)
  | getMinedBlocks (address type : String) (offset page : Option Int)
  | getContractAbi (address : String)
  | getContractExecutionStatus (txhash : String)
  | getTransactionStatus (txhash : String)
  | getBlockReward (blockNumber : Int)
  | getEventsLogs (address : String) (fromBlock : Int) (toBlock : JVal)
      (topic0 : String) (topic01operator topic1 topic12operator topic2
      topic23operator topic3 topic02operator : Option String)
  | getRecentBlockNumber
  | getBlockByNumber (blockNumber : Nat)
  | getUncleByBlockNumberAndIndex (blockNumber index : Nat)
  | getBlockTransactionCount (blockNumber : Nat)
  | getTransactionByHash (txhash : String)
  | getTransactionByBlockNumberAndIndex (blockNumber index : Nat)
  | getTransactionCount (address tag : String)
  | sendRawTransaction (hex : String)
  | getTransactionReceipt (txhash : String)
  | call (toAddr data tag : String)
  | getCode (address tag : String)
  | getStorageAt (address : String) (position : Nat) (tag : String)
  | getGasPrice
  | estimateGas (toAddr value gasPrice gas : String)
  | getTokenByContractAddress (contractAddress : String)
  | getTokenBalanceByContractAddress (contractAddress address tag : String)
  | getTotalEtherSupply
  | getEtherLastPrice

/-- The raw parameter mapping a JavaScript operation builds. -/
def jsOpParams (c : Client) : JsOp → Params
  | .getAccountBalance address tag => jsGetAccountBalance_params address tag
  | .getAccountBalances addresses tag => jsGetAccountBalances_params c addresses tag
  | .getTransactions address sb eb off pg sort =>
    jsGetTransactions_params address sb eb off pg sort
  | .getInternalTransactions address sb eb off pg sort =>
    jsGetInternalTransactions_params address sb eb off pg sort
  | .getInternalTransactionsByHash h => jsGetInternalTransactionsByHash_params h
  | .getMinedBlocks address type off pg => jsGetMinedBlocks_params address type off pg
  | .getContractAbi address => jsGetContractAbi_params address
  | .getContractExecutionStatus txhash => jsGetContractExecutionStatus_params txhash
  | .getTransactionStatus txhash => jsGetTransactionStatus_params txhash
  | .getBlockReward n => jsGetBlockReward_params n
  | .getEventsLogs a fb tb t0 o01 t1 o12 t2 o23 t3 o02 =>
    jsGetEventsLogs_params a fb tb t0 o01 t1 o12 t2 o23 t3 o02
  | .getRecentBlockNumber => jsGetRecentBlockNumber_params
  | .getBlockByNumber n => jsGetBlockByNumber_params n
  | .getUncleByBlockNumberAndIndex n i => jsGetUncleByBlockNumberAndIndex_params n i
  | .getBlockTransactionCount n => jsGetBlockTransactionCount_params n
  | .getTransactionByHash h => jsGetTransactionByHash_params h
  | .getTransactionByBlockNumberAndIndex n i =>
    jsGetTransactionByBlockNumberAndIndex_params n i
  | .getTransactionCount address tag => jsGetTransactionCount_params address tag
  | .sendRawTransaction hex => jsSendRawTransaction_params hex
  | .getTransactionReceipt h => jsGetTransactionReceipt_params h
  | .call toAddr data tag => jsCall_params toAddr data tag
  | .getCode address tag => jsGetCode_params address tag
  | .getStorageAt address position tag => jsGetStorageAt_params address position tag
  | .getGasPrice => jsGetGasPrice_params
  | .estimateGas toAddr value gasPrice gas => jsEstimateGas_params toAddr value gasPrice gas
  | .getTokenByContractAddress a => jsGetTokenByContractAddress_params a
  | .getTokenBalanceByContractAddress ca a tag =>
    jsGetTokenBalanceByContractAddress_params ca a tag
  | .getTotalEtherSupply => jsGetTotalEtherSupply_params
  | .getEtherLastPrice => jsGetEtherLastPrice_params

/-- The parameter mapping a JavaScript operation actually sends: the raw
mapping with the client token spread in under `apikey`
(src/EtherscanApi.js lines 33-38). -/
def jsSentParams (c : Client) (op : JsOp) : Params :=
  setParam (jsOpParams c op) "apikey" (JVal.vstr c.token)

/-! ### Association-list lemmas -/

theorem lookup_none_of_any_false (ps : Params) (k : String)
    (h : ps.any (fun p => p.fst == k) = false) : ps.lookup k = none := by
  induction ps with
  | nil => rfl
  | cons p ps ih =>
    simp only [List.any_cons, Bool.or_eq_false_iff] at h
    have hk : (k == p.fst) = false := by
      cases hpk : (p.fst == k) with
      | true => simp [hpk] at h
      | false =>
        cases hkk : (k == p.fst) with
        | true => exact absurd (by simpa using (beq_iff_eq.mp hkk).symm) (by simpa using hpk)
        | false => rfl
    simp only [List.lookup, hk]
    exact ih h.2

theorem lookup_append_single (ps : Params) (k : String) (v : JVal)
    (h : ps.any (fun p => p.fst == k) = false) :
    (ps ++ [(k, v)]).lookup k = some v := by
  induction ps with
  | nil => simp [List.lookup]
  | cons p ps ih =>
    simp only [List.any_cons, Bool.or_eq_false_iff] at h
    have hk : (k == p.fst) = false := by
      cases hkk : (k == p.fst) with
      | true =>
        have : (p.fst == k) = true := by simpa using (beq_iff_eq.mp hkk).symm
        simp [this] at h
      | false => rfl
    simp only [List.cons_append, List.lookup, hk]
    exact ih h.2

theorem lookup_map_replace (ps : Params) (k : String) (v : JVal)
    (h : ps.any (fun p => p.fst == k) = true) :
    (ps.map (fun p => if p.fst == k then (k, v) else p)).lookup k = some v := by
  induction ps with
  | nil => simp at h
  | cons p ps ih =>
    simp only [List.any_cons, Bool.or_eq_true] at h
    cases hpk : (p.fst == k) with
    | true =>
      have hhead : (if p.fst == k then (k, v) else p) = (k, v) := if_pos hpk
      rw [List.map_cons, hhead]
      simp [List.lookup]
    | false =>
      have hk : (k == p.fst) = false := by
        cases hkk : (k == p.fst) with
        | true =>
          have : (p.fst == k) = true := by simpa using (beq_iff_eq.mp hkk).symm
          rw [this] at hpk
          exact absurd hpk (by simp)
        | false => rfl
      have htl : ps.any (fun p => p.fst == k) = true := by
        rcases h with h | h
        · rw [hpk] at h
          exact absurd h (by simp)
        · exact h
      have hne : ¬((p.fst == k) = true) := by
        rw [hpk]
        simp
      have hhead : (if p.fst == k then (k, v) else p) = p := if_neg hne
      rw [List.map_cons, hhead]
      simp only [List.lookup, hk]
      exact ih htl

/-- Spreading a value under a key always makes it the value found under
that key afterwards. -/
theorem lookup_setParam (ps : Params) (k : String) (v : JVal) :
    (setParam ps k v).lookup k = some v := by
  unfold setParam
  cases h : ps.any (fun p => p.fst == k) with
  | true => simpa [h] using lookup_map_replace ps k v h
  | false => simpa [h] using lookup_append_single ps k v h

/-- Dropping undefined entries is idempotent. -/
theorem filterUndefined_idem (ps : Params) : filterUndefined (filterUndefined ps) = filterUndefined ps := by
  simp only [filterUndefined, List.filter_filter, Bool.and_self]

/-! ### Decimal rendering and parsing lemmas -/

theorem digVal_digCh (n : Nat) (h : n < 10) : digVal (digCh n) = n := by
  interval_cases n <;> rfl

theorem digCh_isDigit (n : Nat) (h : n < 10) : (digCh n).isDigit = true := by
  interval_cases n <;> rfl

theorem nDigAux_lt : ∀ fuel n, n ≤ fuel → n < 10 ^ nDigAux fuel n := by
  intro fuel
  induction fuel with
  | zero =>
    intro n h
    have hn : n = 0 := Nat.le_zero.mp h
    subst hn
    simp [nDigAux]
  | succ fuel ih =>
    intro n h
    unfold nDigAux
    by_cases h10 : n < 10
    · rw [if_pos h10]
      simpa using h10
    · rw [if_neg h10]
      have hpos : 0 < n := by omega
      have hdlt : n / 10 < n := Nat.div_lt_self hpos (by norm_num)
      have hfuel : n / 10 ≤ fuel := by omega
      have hk := ih (n / 10) hfuel
      have e1 := Nat.div_add_mod n 10
      have e2 : n % 10 < 10 := Nat.mod_lt _ (by norm_num)
      calc n < 10 * (n / 10) + 10 := by omega
        _ = 10 * (n / 10 + 1) := by ring
        _ ≤ 10 * 10 ^ nDigAux fuel (n / 10) := by
            exact Nat.mul_le_mul_left _ (by omega)
        _ = 10 ^ (nDigAux fuel (n / 10) + 1) := by rw [pow_succ]; ring

theorem nDigAux_pos (fuel n : Nat) : 1 ≤ nDigAux fuel n := by
  cases fuel with
  | zero => simp [nDigAux]
  | succ fuel =>
    unfold nDigAux
    split <;> omega

theorem numDigits_lt (n : Nat) : n < 10 ^ numDigits n := nDigAux_lt n n le_rfl

theorem numDigits_pos (n : Nat) : 1 ≤ numDigits n := nDigAux_pos n n

theorem natDigs_foldl : ∀ (w x acc : Nat), x < 10 ^ w →
    (natDigs w x).foldl (fun a c => a * 10 + digVal c) acc = acc * 10 ^ w + x := by
  intro w
  induction w with
  | zero =>
    intro x acc h
    have hx : x = 0 := by simpa using h
    subst hx
    simp [natDigs]
  | succ w ih =>
    intro x acc h
    have hq : x / 10 ^ w < 10 := by
      apply Nat.div_lt_of_lt_mul
      calc x < 10 ^ (w + 1) := h
        _ = 10 ^ w * 10 := by rw [pow_succ]
    have hr : x % 10 ^ w < 10 ^ w := Nat.mod_lt _ (pow_pos (by norm_num) w)
    simp only [natDigs, List.foldl]
    rw [digVal_digCh _ hq, ih (x % 10 ^ w) (acc * 10 + x / 10 ^ w) hr]
    have e := Nat.div_add_mod x (10 ^ w)
    calc (acc * 10 + x / 10 ^ w) * 10 ^ w + x % 10 ^ w
        = acc * (10 ^ w * 10) + (10 ^ w * (x / 10 ^ w) + x % 10 ^ w) := by ring
      _ = acc * 10 ^ (w + 1) + x := by rw [e, pow_succ]

theorem natDigs_all_digits : ∀ (w x : Nat), x < 10 ^ w →
    ∀ c ∈ natDigs w x, c.isDigit = true := by
  intro w
  induction w with
  | zero =>
    intro x _ c hc
    simp [natDigs] at hc
  | succ w ih =>
    intro x h c hc
    have hq : x / 10 ^ w < 10 := by
      apply Nat.div_lt_of_lt_mul
      calc x < 10 ^ (w + 1) := h
        _ = 10 ^ w * 10 := by rw [pow_succ]
    have hr : x % 10 ^ w < 10 ^ w := Nat.mod_lt _ (pow_pos (by norm_num) w)
    simp only [natDigs, List.mem_cons] at hc
    rcases hc with hc | hc
    · subst hc
      exact digCh_isDigit _ hq
    · exact ih (x % 10 ^ w) hr c hc

theorem natDigs_length : ∀ (w x : Nat), (natDigs w x).length = w := by
  intro w
  induction w with
  | zero => intro x; rfl
  | succ w ih => intro x; simp [natDigs, ih]

theorem dot_not_mem_natDigs (w x : Nat) (h : x < 10 ^ w) : '.' ∉ natDigs w x := by
  intro hm
  have := natDigs_all_digits w x h '.' hm
  simp [Char.isDigit] at this

theorem parseDigits_natDigs (w x : Nat) (hw : w ≠ 0) (h : x < 10 ^ w) :
    parseDigits (natDigs w x) = some x := by
  unfold parseDigits
  rw [if_pos]
  · rw [natDigs_foldl w x 0 h]
    simp
  · constructor
    · intro hnil
      have := natDigs_length w x
      rw [hnil] at this
      simp at this
      omega
    · exact List.all_eq_true.mpr (fun c hc => natDigs_all_digits w x h c hc)

theorem parseDigits_renderNat (n : Nat) : parseDigits (renderNat n) = some n :=
  parseDigits_natDigs (numDigits n) n (by have := numDigits_pos n; omega) (numDigits_lt n)

theorem dot_not_mem_renderNat (n : Nat) : '.' ∉ renderNat n :=
  dot_not_mem_natDigs (numDigits n) n (numDigits_lt n)

theorem splitDot_no_dot : ∀ cs : List Char, '.' ∉ cs → splitDot cs = (cs, none) := by
  intro cs
  induction cs with
  | nil => intro _; rfl
  | cons c cs ih =>
    intro h
    have hc : ¬(c = '.') := fun he => h (by rw [he]; exact List.mem_cons_self _ _)
    have htl : '.' ∉ cs := fun hm => h (List.mem_cons_of_mem _ hm)
    simp only [splitDot, if_neg hc, ih htl]

theorem splitDot_append : ∀ (as bs : List Char), '.' ∉ as →
    splitDot (as ++ '.' :: bs) = (as, some bs) := by
  intro as bs
  induction as with
  | nil => intro _; simp [splitDot]
  | cons a as ih =>
    intro h
    have ha : ¬(a = '.') := fun he => h (by rw [he]; exact List.mem_cons_self _ _)
    have htl : '.' ∉ as := fun hm => h (List.mem_cons_of_mem _ hm)
    simp only [List.cons_append, splitDot, if_neg ha]
    rw [show as.append ('.' :: bs) = as ++ '.' :: bs from rfl, ih htl]

theorem parseDecChars_noDot (cs ics : List Char) (n : Nat)
    (hsplit : splitDot cs = (ics, none)) (hi : parseDigits ics = some n) :
    parseDecChars cs = some ⟨n, 0⟩ := by
  unfold parseDecChars
  rw [hsplit]
  simp [hi]

theorem parseDecChars_withDot (cs ics fcs : List Char) (ni nf : Nat)
    (hsplit : splitDot cs = (ics, some fcs)) (hi : parseDigits ics = some ni)
    (hf : parseDigits fcs = some nf) :
    parseDecChars cs = some ⟨ni * 10 ^ fcs.length + nf, fcs.length⟩ := by
  unfold parseDecChars
  rw [hsplit]
  simp [hi, hf]

/-- Rendering an exact decimal value and parsing the result recovers the
value, fractional width included. -/
theorem parse_render (d : Dec) : parseDec (renderDec d) = some d := by
  obtain ⟨m, f⟩ := d
  show parseDecChars (renderDecChars ⟨m, f⟩) = some ⟨m, f⟩
  by_cases hf : f = 0
  · subst hf
    have hrend : renderDecChars ⟨m, 0⟩ = renderNat m := rfl
    rw [hrend]
    exact parseDecChars_noDot _ _ _ (splitDot_no_dot _ (dot_not_mem_renderNat m))
      (parseDigits_renderNat m)
  · have hrend : renderDecChars ⟨m, f⟩
        = renderNat (m / 10 ^ f) ++ '.' :: natDigs f (m % 10 ^ f) := by
      unfold renderDecChars
      exact if_neg hf
    rw [hrend]
    have hr : m % 10 ^ f < 10 ^ f := Nat.mod_lt _ (pow_pos (by norm_num) f)
    rw [parseDecChars_withDot _ _ _ _ _
      (splitDot_append _ _ (dot_not_mem_renderNat (m / 10 ^ f)))
      (parseDigits_renderNat (m / 10 ^ f))
      (parseDigits_natDigs f (m % 10 ^ f) hf hr)]
    rw [natDigs_length]
    have e2 : m / 10 ^ f * 10 ^ f + m % 10 ^ f = m := by
      rw [Nat.mul_comm]
      exact Nat.div_add_mod m (10 ^ f)
    rw [e2]

/-! ### Normalization and scaling lemmas.  Two decimal values `d`, `e`
denote the same number exactly when `d.m * 10 ^ e.f = e.m * 10 ^ d.f`;
the lemmas below state value preservation through that cross equation. -/

theorem normAux_isNorm : ∀ (f m : Nat),
    (normAux m f).f = 0 ∨ (normAux m f).m % 10 ≠ 0 := by
  intro f
  induction f with
  | zero => intro m; left; rfl
  | succ f ih =>
    intro m
    unfold normAux
    by_cases h : m % 10 = 0
    · rw [if_pos h]
      exact ih (m / 10)
    · rw [if_neg h]
      right
      exact h

theorem normAux_cross : ∀ (f m : Nat),
    (normAux m f).m * 10 ^ f = m * 10 ^ (normAux m f).f := by
  intro f
  induction f with
  | zero => intro m; rfl
  | succ f ih =>
    intro m
    unfold normAux
    by_cases h : m % 10 = 0
    · rw [if_pos h]
      have hdvd : 10 ∣ m := Nat.dvd_of_mod_eq_zero h
      have hm : m / 10 * 10 = m := Nat.div_mul_cancel hdvd
      calc (normAux (m / 10) f).m * 10 ^ (f + 1)
          = (normAux (m / 10) f).m * 10 ^ f * 10 := by rw [pow_succ]; ring
        _ = m / 10 * 10 ^ (normAux (m / 10) f).f * 10 := by rw [ih (m / 10)]
        _ = (m / 10 * 10) * 10 ^ (normAux (m / 10) f).f := by ring
        _ = m * 10 ^ (normAux (m / 10) f).f := by rw [hm]
    · rw [if_neg h]

theorem isNorm_le_inj (d e : Dec) (hfe : d.f ≤ e.f)
    (he : e.f = 0 ∨ e.m % 10 ≠ 0)
    (h : d.m * 10 ^ e.f = e.m * 10 ^ d.f) : d = e := by
  obtain ⟨t, ht⟩ := Nat.exists_eq_add_of_le hfe
  have hcancel : d.m * 10 ^ t = e.m := by
    apply Nat.eq_of_mul_eq_mul_right (show 0 < 10 ^ d.f from pow_pos (by norm_num) d.f)
    calc d.m * 10 ^ t * 10 ^ d.f = d.m * 10 ^ (d.f + t) := by rw [pow_add]; ring
      _ = d.m * 10 ^ e.f := by rw [ht]
      _ = e.m * 10 ^ d.f := h
  cases t with
  | zero =>
    obtain ⟨dm, df⟩ := d
    obtain ⟨em, ef⟩ := e
    simp only at ht hcancel
    simp only [Nat.add_zero] at ht
    simp only [pow_zero, Nat.mul_one] at hcancel
    rw [ht, hcancel]
  | succ s =>
    exfalso
    have hef : e.f ≠ 0 := by omega
    have hmod : e.m % 10 = 0 := by
      have : e.m = d.m * 10 ^ s * 10 := by
        rw [← hcancel, pow_succ]
        ring
      rw [this]
      exact Nat.mul_mod_left _ _
    rcases he with he | he
    · exact hef he
    · exact he hmod

theorem isNorm_inj (d e : Dec)
    (hd : d.f = 0 ∨ d.m % 10 ≠ 0) (he : e.f = 0 ∨ e.m % 10 ≠ 0)
    (h : d.m * 10 ^ e.f = e.m * 10 ^ d.f) : d = e := by
  rcases Nat.le_total d.f e.f with hle | hle
  · exact isNorm_le_inj d e hle he h
  · exact (isNorm_le_inj e d hle hd h.symm).symm

theorem cross_trans (a b c : Dec)
    (h1 : a.m * 10 ^ b.f = b.m * 10 ^ a.f)
    (h2 : b.m * 10 ^ c.f = c.m * 10 ^ b.f) :
    a.m * 10 ^ c.f = c.m * 10 ^ a.f := by
  apply Nat.eq_of_mul_eq_mul_right (show 0 < 10 ^ b.f from pow_pos (by norm_num) b.f)
  calc a.m * 10 ^ c.f * 10 ^ b.f = (a.m * 10 ^ b.f) * 10 ^ c.f := by ring
    _ = (b.m * 10 ^ a.f) * 10 ^ c.f := by rw [h1]
    _ = (b.m * 10 ^ c.f) * 10 ^ a.f := by ring
    _ = (c.m * 10 ^ b.f) * 10 ^ a.f := by rw [h2]
    _ = c.m * 10 ^ a.f * 10 ^ b.f := by ring

/-- Two value-equal decimals normalize to the same canonical form. -/
theorem norm_eq_of_cross (d e : Dec)
    (h : d.m * 10 ^ e.f = e.m * 10 ^ d.f) : normDec d = normDec e := by
  apply isNorm_inj _ _ (normAux_isNorm d.f d.m) (normAux_isNorm e.f e.m)
  have hd := normAux_cross d.f d.m
  have he := normAux_cross e.f e.m
  exact cross_trans (normDec d) d (normDec e) hd
    (cross_trans d e (normDec e) h he.symm)

theorem shift_cross_congr (k : Int) (d e : Dec)
    (h : d.m * 10 ^ e.f = e.m * 10 ^ d.f) :
    (shiftDec k d).m * 10 ^ (shiftDec k e).f
      = (shiftDec k e).m * 10 ^ (shiftDec k d).f := by
  unfold shiftDec
  by_cases hk : 0 ≤ k
  · rw [if_pos hk, if_pos hk]
    simp only
    calc d.m * 10 ^ k.toNat * 10 ^ e.f = (d.m * 10 ^ e.f) * 10 ^ k.toNat := by ring
      _ = (e.m * 10 ^ d.f) * 10 ^ k.toNat := by rw [h]
      _ = e.m * 10 ^ k.toNat * 10 ^ d.f := by ring
  · rw [if_neg hk, if_neg hk]
    simp only
    calc d.m * 10 ^ (e.f + (-k).toNat)
        = (d.m * 10 ^ e.f) * 10 ^ (-k).toNat := by rw [pow_add]; ring
      _ = (e.m * 10 ^ d.f) * 10 ^ (-k).toNat := by rw [h]
      _ = e.m * 10 ^ (d.f + (-k).toNat) := by rw [pow_add]; ring

theorem shift_inv_cross (k : Int) (d : Dec) :
    (shiftDec (-k) (shiftDec k d)).m * 10 ^ d.f
      = d.m * 10 ^ (shiftDec (-k) (shiftDec k d)).f := by
  by_cases hk0 : k = 0
  · subst hk0
    norm_num [shiftDec]
  · by_cases hk : 0 ≤ k
    · have hnk : ¬(0 ≤ -k) := by omega
      unfold shiftDec
      rw [if_pos hk, if_neg hnk]
      show d.m * 10 ^ k.toNat * 10 ^ d.f = d.m * 10 ^ (d.f + (- -k).toNat)
      rw [neg_neg, pow_add]
      ring
    · have hnk : 0 ≤ -k := by omega
      unfold shiftDec
      rw [if_neg hk, if_pos hnk]
      show d.m * 10 ^ (-k).toNat * 10 ^ d.f = d.m * 10 ^ (d.f + (-k).toNat)
      rw [pow_add]
      ring

/-- Scaling by `10 ^ k`, normalizing, scaling back by `10 ^ (-k)` and
normalizing again is exactly normalization. -/
theorem norm_shift_roundtrip (k : Int) (d : Dec) :
    normDec (shiftDec (-k) (normDec (shiftDec k d))) = normDec d := by
  apply norm_eq_of_cross
  have h1 : (normDec (shiftDec k d)).m * 10 ^ (shiftDec k d).f
      = (shiftDec k d).m * 10 ^ (normDec (shiftDec k d)).f :=
    normAux_cross (shiftDec k d).f (shiftDec k d).m
  have h2 := shift_cross_congr (-k) (normDec (shiftDec k d)) (shiftDec k d) h1
  have h3 := shift_inv_cross k d
  exact cross_trans (shiftDec (-k) (normDec (shiftDec k d)))
    (shiftDec (-k) (shiftDec k d)) d h2 h3

/-! ### Converter and facade helper lemmas -/

theorem except_ok_bind {ε α β : Type} (a : α) (f : α → Except ε β) :
    (Except.ok a : Except ε α).bind f = f a := rfl

theorem except_bind_ok {ε α : Type} (x : Except ε α) :
    x.bind (fun a => Except.ok a) = x := by
  cases x <;> rfl

theorem etherConvert_same (X A : String) (ea : Nat)
    (hA : UNITS.lookup A = some ea) : etherConvert X A A = .ok X := by
  unfold etherConvert
  rw [hA]
  simp

theorem etherConvert_eq_of_lookup (X A B : String) (ea eb : Nat)
    (hA : UNITS.lookup A = some ea) (hB : UNITS.lookup B = some eb) (hAB : A ≠ B)
    (d : Dec) (hd : parseDec X = some d) :
    etherConvert X A B
      = .ok (renderDec (normDec (shiftDec ((ea : Int) - (eb : Int)) d))) := by
  unfold etherConvert
  rw [hA, hB]
  simp only [if_neg hAB, hd]

/-! ### Claim theorems -/

/-- Claim C8, counterexample: the round trip is not the identity on every
decimal amount string.  At the explicit input X = "1.0", A = "wei",
B = "ether", converting to ether and back yields the canonical string
"1", which differs from the input, so the claim as stated is false. -/
theorem c8_counterexample :
    ((etherConvert "1.0" "wei" "ether").bind fun Y => etherConvert Y "ether" "wei")
      = Except.ok "1"
    ∧ ("1" : String) ≠ "1.0" := by
  constructor
  · decide
  · decide

/-- Claim C8 as amended: for every pair of unit names in the unit table
and every canonical decimal amount string X (one that equals the
rendering of the normalized value it denotes), converting X from A to B
and back from B to A yields X exactly; the arithmetic is exact, so only
the re-rendering of non-canonical spellings (extra zeros) can differ. -/
theorem etherConvert_roundTrip_canonical (X A B : String) (ea eb : Nat)
    (hA : UNITS.lookup A = some ea) (hB : UNITS.lookup B = some eb)
    (hX : canonicalDec X) :
    ((etherConvert X A B).bind fun Y => etherConvert Y B A) = Except.ok X := by
  by_cases hAB : A = B
  · subst hAB
    rw [etherConvert_same X A ea hA, except_ok_bind]
    exact etherConvert_same X A ea hA
  · unfold canonicalDec at hX
    cases hp : parseDec X with
    | none => rw [hp] at hX; simp at hX
    | some d =>
      rw [hp] at hX
      simp only [Option.map_some'] at hX
      have hXr : renderDec (normDec d) = X := Option.some.inj hX
      rw [etherConvert_eq_of_lookup X A B ea eb hA hB hAB d hp, except_ok_bind]
      rw [etherConvert_eq_of_lookup _ B A eb ea hB hA
        (fun he => hAB he.symm) _ (parse_render _)]
      have hk : (eb : Int) - (ea : Int) = -((ea : Int) - (eb : Int)) := by ring
      rw [hk, norm_shift_roundtrip ((ea : Int) - (eb : Int)) d, hXr]

/-- Claim C8, witness: the amended round trip at the concrete canonical
amount "2" between wei and ether. -/
theorem c8_witness :
    UNITS.lookup "wei" = some 0 ∧ UNITS.lookup "ether" = some 18
    ∧ canonicalDec "2"
    ∧ ((etherConvert "2" "wei" "ether").bind fun Y => etherConvert Y "ether" "wei")
        = Except.ok "2" :=
  ⟨by decide, by decide, by decide,
    etherConvert_roundTrip_canonical "2" "wei" "ether" 0 18 (by decide) (by decide)
      (by decide)⟩

/-- Claim C5: `getAccountBalance` returns the raw wei balance for unit
"wei"; for any other unit present in the unit table it returns the
remote wei balance run through the converter; and on the concrete mocked
envelope with result "2000000000000000000" and unit "ether" both clients
return "2". -/
theorem getAccountBalance_unit_conversion :
    (∀ (c : Client) (remote : String → String → Envelope String) (address : String),
        tsGetAccountBalance c remote address "wei"
          = clientRequest c remote (tsGetAccountBalance_params address))
  ∧ (∀ (c : Client) (remote : String → String → Envelope String)
        (address unit : String) (e : Nat) (resp : String),
        UNITS.lookup unit = some e → unit ≠ "wei" →
        clientRequest c remote (tsGetAccountBalance_params address) = .ok resp →
        tsGetAccountBalance c remote address unit
          = (etherConvert resp "wei" unit).mapError ApiErr.conv)
  ∧ tsGetAccountBalance (mkClientTS "T" "main")
      (fun _ _ => ⟨"1", "OK", "2000000000000000000"⟩) "0x0" "ether"
      = Except.ok "2"
  ∧ jsGetAccountBalance (mkClientJS "T" "main")
      (fun _ _ => ⟨"1", "OK", "2000000000000000000"⟩) "0x0" "ether" "latest"
      = Except.ok "2" := by
  refine ⟨?_, ?_, by decide, by decide⟩
  · intro c remote address
    unfold tsGetAccountBalance
    have hcond : ("wei" = "wei" ∨ UNITS.lookup "wei" = none) := Or.inl rfl
    simp only [if_pos hcond]
    exact except_bind_ok _
  · intro c remote address unit e resp hl hw hreq
    unfold tsGetAccountBalance
    rw [hreq, except_ok_bind]
    have hcond : ¬(unit = "wei" ∨ UNITS.lookup unit = none) := by
      intro h
      rcases h with h | h
      · exact hw h
      · rw [hl] at h
        cases h
    rw [if_neg hcond]

/-- Claim C5, witness: the general non-wei conjunct applied at unit
"gwei" with a mocked remote balance of "5". -/
theorem c5_witness :
    UNITS.lookup "gwei" = some 9
    ∧ clientRequest (mkClientTS "T" "main")
        (fun _ _ => ⟨"1", "OK", "5"⟩) (tsGetAccountBalance_params "0xa") = .ok "5"
    ∧ tsGetAccountBalance (mkClientTS "T" "main")
        (fun _ _ => ⟨"1", "OK", "5"⟩) "0xa" "gwei"
        = (etherConvert "5" "wei" "gwei").mapError ApiErr.conv :=
  ⟨by decide, by decide,
    getAccountBalance_unit_conversion.2.1 (mkClientTS "T" "main")
      (fun _ _ => ⟨"1", "OK", "5"⟩) "0xa" "gwei" 9 "5" (by decide) (by decide)
      (by decide)⟩

/-- Claim C1, counterexample: `getGasPrice` performs no unit-table
membership check.  At the explicit unrecognized unit "foo", with a
successful remote gas price of "0x5", the method does not return the
remote result unchanged: it hands the price to the converter, which
rejects the unit, so the call fails with the converter's invalid-unit
error. -/
theorem c1_counterexample :
    UNITS.lookup "foo" = none
    ∧ jsGetGasPrice (mkClientJS "TOKEN" "main")
        (fun _ _ => ⟨"1", "OK", "0x5"⟩) "foo"
        = Except.error (ApiErr.conv ConvErr.invalidUnit) := by
  constructor
  · decide
  · decide

/-- Claim C1 as amended: the two balance operations of both clients do
check unit membership and pass the remote result through unchanged on an
unrecognized unit, without invoking the converter; `getGasPrice` however
only special-cases "wei" and feeds every other unit name, recognized or
not, to the strict converter. -/
theorem unit_guard_amended :
    ∀ (c : Client) (unit : String), UNITS.lookup unit = none →
    (∀ (remote : String → String → Envelope String) (address tag : String),
        jsGetAccountBalance c remote address unit tag
          = clientRequest c remote (jsGetAccountBalance_params address tag)
      ∧ tsGetAccountBalance c remote address unit
          = clientRequest c remote (tsGetAccountBalance_params address))
    ∧ (∀ (remote : String → String → Envelope (List AccountBalance))
          (addresses : List String) (tag : String),
        jsGetAccountBalances c remote addresses unit tag
          = clientRequest c remote (jsGetAccountBalances_params c addresses tag)
      ∧ tsGetAccountBalances c remote addresses unit
          = clientRequest c remote (tsGetAccountBalances_params c addresses))
    ∧ (∀ (remote : String → String → Envelope String), unit ≠ "wei" →
        ∀ priceHex d, clientRequest c remote jsGetGasPrice_params = .ok priceHex →
          bigNumParse priceHex = some d →
          jsGetGasPrice c remote unit
            = (etherConvert (renderDec (normDec d)) "wei" unit).mapError ApiErr.conv) := by
  intro c unit h
  have hcond : ∀ u : String, u = unit → (u = "wei" ∨ UNITS.lookup u = none) :=
    fun u hu => Or.inr (hu ▸ h)
  refine ⟨?_, ?_, ?_⟩
  · intro remote address tag
    constructor
    · unfold jsGetAccountBalance
      simp only [if_pos (hcond unit rfl)]
      exact except_bind_ok _
    · unfold tsGetAccountBalance
      simp only [if_pos (hcond unit rfl)]
      exact except_bind_ok _
  · intro remote addresses tag
    constructor
    · unfold jsGetAccountBalances
      simp only [if_pos (hcond unit rfl)]
      exact except_bind_ok _
    · unfold tsGetAccountBalances
      simp only [if_pos (hcond unit rfl)]
      exact except_bind_ok _
  · intro remote hw priceHex d hreq hparse
    unfold jsGetGasPrice
    rw [hreq, except_ok_bind, hparse]
    simp only [if_neg hw]

/-- Claim C1, witness: the amended pass-through conjunct applied at the
unrecognized unit "foo" for both balance operations. -/
theorem c1_witness :
    UNITS.lookup "foo" = none
    ∧ jsGetAccountBalance (mkClientJS "T" "main")
        (fun _ _ => ⟨"1", "OK", "7"⟩) "0xa" "foo" "latest"
        = clientRequest (mkClientJS "T" "main") (fun _ _ => ⟨"1", "OK", "7"⟩)
            (jsGetAccountBalance_params "0xa" "latest") :=
  ⟨by decide,
    ((unit_guard_amended (mkClientJS "T" "main") "foo" (by decide)).1
      (fun _ _ => ⟨"1", "OK", "7"⟩) "0xa" "latest").1⟩

/-- Claim C2: the raw-transaction-submission and gas-estimation methods
issue their remote request but drop its result: whatever the remote
returns, the caller receives the JavaScript `undefined` (`none`), never
the outcome of the request — shown both universally and at a concrete
input where the issued request itself succeeds; a sibling operation
(`getTransactionReceipt`) does return its request result. -/
theorem fire_and_forget_drops_result :
    (∀ (c : Client) (remote : String → String → Envelope String) (hex : String),
        (jsSendRawTransaction c remote hex).2 = none)
  ∧ (∀ (c : Client) (remote : String → String → Envelope String)
        (toAddr value gasPrice gas : String),
        (jsEstimateGas c remote toAddr value gasPrice gas).2 = none)
  ∧ (jsSendRawTransaction (mkClientJS "TOKEN" "main")
      (fun _ _ => ⟨"1", "OK", "0xdeadbeef"⟩) "0xf86c").1 = Except.ok "0xdeadbeef"
  ∧ (jsEstimateGas (mkClientJS "TOKEN" "main")
      (fun _ _ => ⟨"1", "OK", "0x5208"⟩) "0xto" "0x1" "0x1" "0x1").1
      = Except.ok "0x5208"
  ∧ (∀ (c : Client) (remote : String → String → Envelope String) (txhash : String),
        jsGetTransactionReceipt c remote txhash
          = clientRequest c remote (jsGetTransactionReceipt_params txhash)) :=
  ⟨fun _ _ _ => rfl, fun _ _ _ _ _ _ => rfl, by decide, by decide,
    fun _ _ _ => rfl⟩

/-- Claim C3: the three legacy list operations of the TypeScript client
send the module constant under the `action` key and the action constant
under the `module` key, and those constants are distinct strings, so the
transposition is observable on the wire. -/
theorem ts_legacy_transposed_keys :
    (∀ (address : String) (sb eb off pg : Option Int) (so : Option String),
        (tsGetTransactions_params address sb eb off pg so).lookup "action"
          = some (JVal.vstr MODULES.ACCOUNT)
      ∧ (tsGetTransactions_params address sb eb off pg so).lookup "module"
          = some (JVal.vstr ACTIONS.TRANSACTIONS_LIST))
  ∧ (∀ (address : String) (sb eb off pg : Option Int) (so : Option String),
        (tsGetInternalTransactions_params address sb eb off pg so).lookup "action"
          = some (JVal.vstr MODULES.ACCOUNT)
      ∧ (tsGetInternalTransactions_params address sb eb off pg so).lookup "module"
          = some (JVal.vstr ACTIONS.TRANSACTIONS_LIST_INTERNAL))
  ∧ (∀ transactionHash : String,
        (tsGetInternalTransactionsByHash_params transactionHash).lookup "action"
          = some (JVal.vstr MODULES.ACCOUNT)
      ∧ (tsGetInternalTransactionsByHash_params transactionHash).lookup "module"
          = some (JVal.vstr ACTIONS.TRANSACTIONS_LIST_INTERNAL))
  ∧ MODULES.ACCOUNT ≠ ACTIONS.TRANSACTIONS_LIST
  ∧ MODULES.ACCOUNT ≠ ACTIONS.TRANSACTIONS_LIST_INTERNAL :=
  ⟨fun _ _ _ _ _ _ => ⟨rfl, rfl⟩, fun _ _ _ _ _ _ => ⟨rfl, rfl⟩,
    fun _ => ⟨rfl, rfl⟩, by decide, by decide⟩

theorem resolveHost_some (name host : String)
    (h : NETWORKS.lookup (jsToUpperCase name) = some host) :
    (NETWORKS.lookup (if (NETWORKS.lookup (jsToUpperCase name)).isSome
      then jsToUpperCase name else "MAIN")).getD "" = host := by
  have hs : (NETWORKS.lookup (jsToUpperCase name)).isSome = true := by rw [h]; rfl
  rw [if_pos hs, h]
  rfl

theorem resolveHost_none (name : String)
    (h : NETWORKS.lookup (jsToUpperCase name) = none) :
    (NETWORKS.lookup (if (NETWORKS.lookup (jsToUpperCase name)).isSome
      then jsToUpperCase name else "MAIN")).getD "" = "https://api.etherscan.io/api" := by
  have hs : ¬((NETWORKS.lookup (jsToUpperCase name)).isSome = true) := by
    rw [h]
    simp
  rw [if_neg hs]
  rfl

/-- Claim C4: network resolution upper-cases the given name, uses its
host when the upper-cased name is a key of the network table, and falls
back to the main-network host otherwise — for both constructors, with
the spec's concrete instances "ROPSTEN", "ropsten" and "nonexistent". -/
theorem network_resolution :
    (∀ (token name host : String),
        NETWORKS.lookup (jsToUpperCase name) = some host →
        (mkClientTS token name).host = host ∧ (mkClientJS token name).host = host)
  ∧ (∀ token name : String,
        NETWORKS.lookup (jsToUpperCase name) = none →
        (mkClientTS token name).host = "https://api.etherscan.io/api"
      ∧ (mkClientJS token name).host = "https://api.etherscan.io/api")
  ∧ (∀ token : String,
        (mkClientTS token "ROPSTEN").host = "https://api-ropsten.etherscan.io/api"
      ∧ (mkClientTS token "ropsten").host = "https://api-ropsten.etherscan.io/api"
      ∧ (mkClientTS token "nonexistent").host = "https://api.etherscan.io/api"
      ∧ (mkClientJS token "ropsten").host = "https://api-ropsten.etherscan.io/api"
      ∧ (mkClientJS token "nonexistent").host = "https://api.etherscan.io/api") := by
  refine ⟨?_, ?_, fun token => ⟨rfl, rfl, rfl, rfl, rfl⟩⟩
  · intro token name host h
    exact ⟨resolveHost_some name host h, resolveHost_some name host h⟩
  · intro token name h
    exact ⟨resolveHost_none name h, resolveHost_none name h⟩

/-- Claim C4, witness: the recognized-name conjunct applied at the
concrete name "kovan". -/
theorem c4_witness :
    NETWORKS.lookup (jsToUpperCase "kovan") = some "https://api-kovan.etherscan.io/api"
    ∧ (mkClientTS "T" "kovan").host = "https://api-kovan.etherscan.io/api" :=
  ⟨by decide,
    (network_resolution.1 "T" "kovan" "https://api-kovan.etherscan.io/api"
      (by decide)).1⟩

/-- Claim C6: every public operation of both clients sends a parameter
mapping whose `apikey` entry is exactly the token the client was
constructed with; the injection happens in the shared private request
helper, so no operation can omit or override it. -/
theorem apikey_always_sent :
    (∀ (c : Client) (op : JsOp),
        (jsSentParams c op).lookup "apikey" = some (JVal.vstr c.token))
  ∧ (∀ (c : Client) (op : TsOp),
        (tsSentParams c op).lookup "apikey" = some (JVal.vstr c.token)) := by
  constructor
  · intro c op
    unfold jsSentParams
    exact lookup_setParam _ _ _
  · intro c op
    unfold tsSentParams
    exact lookup_setParam _ _ _

/-- Claim C7: the event-logs operation accepts a caller-supplied address
but never places it in the parameter mapping it sends — universally, and
at a concrete failing input, where the other arguments are forwarded but
`address` is absent even after the `apikey` injection. -/
theorem getEventsLogs_drops_address :
    (∀ (a : String) (fb : Int) (tb : JVal) (t0 : String)
        (o01 t1 o12 t2 o23 t3 o02 : Option String),
        (jsGetEventsLogs_params a fb tb t0 o01 t1 o12 t2 o23 t3 o02).lookup "address"
          = none)
  ∧ (setParam (jsGetEventsLogs_params "0x33990122638b9132ca29c723bdf037f1a891a70c"
        379224 (JVal.vstr "latest") "0xf63780e752c6a54a94fc52715dbc5518a3b4c3c2833d301a204226548a2a8545"
        none none none none none none none) "apikey"
        (JVal.vstr "TOKEN")).lookup "address" = none
  ∧ (jsGetEventsLogs_params "0x33990122638b9132ca29c723bdf037f1a891a70c"
        379224 (JVal.vstr "latest") "0xf63780e752c6a54a94fc52715dbc5518a3b4c3c2833d301a204226548a2a8545"
        none none none none none none none).lookup "fromBlock"
      = some (JVal.vnum 379224) :=
  ⟨fun _ _ _ _ _ _ _ _ _ _ _ => rfl, by decide, by decide⟩

/-- Claim C9: the request builder serializes exactly the defined entries:
the query string is unaffected by undefined entries, every defined entry
contributes its `key=value` segment, every segment comes from a defined
entry (so `undefined` is never rendered), and on the spec's concrete
example the query string is "a=x" with no trace of the undefined key. -/
theorem undefined_params_never_serialized :
    (∀ ps : Params, buildQueryString ps = buildQueryString (filterUndefined ps))
  ∧ (∀ (ps : Params) (k : String) (v : JVal),
        (k, v) ∈ ps → v.isUndefined = false →
        (k ++ "=" ++ v.render) ∈ querySegments ps)
  ∧ (∀ (ps : Params) (s : String), s ∈ querySegments ps →
        ∃ k v, (k, v) ∈ ps ∧ v.isUndefined = false ∧ s = k ++ "=" ++ v.render)
  ∧ buildQueryString [("a", JVal.vstr "x"), ("b", JVal.vundefined)] = "a=x" := by
  refine ⟨?_, ?_, ?_, by decide⟩
  · intro ps
    unfold buildQueryString querySegments
    rw [filterUndefined_idem]
  · intro ps k v hmem hdef
    unfold querySegments
    apply List.mem_map.mpr
    refine ⟨(k, v), ?_, rfl⟩
    unfold filterUndefined
    apply List.mem_filter.mpr
    exact ⟨hmem, by rw [hdef]; rfl⟩
  · intro ps s hs
    unfold querySegments at hs
    obtain ⟨p, hp, hps⟩ := List.mem_map.mp hs
    have hf := List.mem_filter.mp hp
    refine ⟨p.fst, p.snd, hf.1, ?_, hps.symm⟩
    have := hf.2
    cases hv : p.snd.isUndefined
    · rfl
    · rw [hv] at this
      simp at this

/-- Claim C9, witness: the defined-entry conjunct applied on the spec's
concrete parameter list. -/
theorem c9_witness :
    (("a", JVal.vstr "x") ∈ ([("a", JVal.vstr "x"), ("b", JVal.vundefined)] : Params)
      ∧ (JVal.vstr "x").isUndefined = false)
    ∧ ("a" ++ "=" ++ (JVal.vstr "x").render)
        ∈ querySegments [("a", JVal.vstr "x"), ("b", JVal.vundefined)] :=
  ⟨⟨by decide, rfl⟩,
    undefined_params_never_serialized.2.1
      [("a", JVal.vstr "x"), ("b", JVal.vundefined)] "a" (JVal.vstr "x")
      (by decide) rfl⟩

/-- Claim C10: the TypeScript `getMinedBlock` builds, after dropping
undefined entries, exactly the parameter list of the TypeScript
internal-transactions operation called with only an address, offset and
page (transposed keys, internal-transaction action, no blocktype), while
the JavaScript `getMinedBlocks` uses the dedicated mined-blocks action
with a blocktype entry under untransposed keys — so the two
implementations are not equivalent. -/
theorem minedBlocks_divergence :
    (∀ (address : String) (offset page : Option Int),
        filterUndefined (tsGetMinedBlock_params address offset page)
          = filterUndefined (tsGetInternalTransactions_params address none none offset page none))
  ∧ (∀ (address : String) (offset page : Option Int),
        (tsGetMinedBlock_params address offset page).lookup "module"
          = some (JVal.vstr ACTIONS.TRANSACTIONS_LIST_INTERNAL)
      ∧ (tsGetMinedBlock_params address offset page).lookup "action"
          = some (JVal.vstr MODULES.ACCOUNT)
      ∧ (tsGetMinedBlock_params address offset page).lookup "blocktype" = none)
  ∧ (∀ (address type : String) (offset page : Option Int),
        (jsGetMinedBlocks_params address type offset page).lookup "action"
          = some (JVal.vstr ACTIONS.GET_MINED_BLOCKS)
      ∧ (jsGetMinedBlocks_params address type offset page).lookup "module"
          = some (JVal.vstr MODULES.ACCOUNT)
      ∧ (jsGetMinedBlocks_params address type offset page).lookup "blocktype"
          = some (JVal.vstr type))
  ∧ ACTIONS.GET_MINED_BLOCKS ≠ ACTIONS.TRANSACTIONS_LIST_INTERNAL := by
  refine ⟨?_, fun _ _ _ => ⟨rfl, rfl, rfl⟩, fun _ _ _ _ => ⟨rfl, rfl, rfl⟩, by decide⟩
  intro address offset page
  cases offset <;> cases page <;> rfl

end Etherscan
